import Mathlib

/-!
Shallow embedding of `wernher/pid_control.py` (single-axis PID controller
with a tuning-parameter facade and a Ziegler-Nichols gain table).

Python real numbers are modelled as exact rationals (`ℚ`).  Python errors
that the embedded code can raise (`ZeroDivisionError` from `/` with a zero
denominator, `KeyError` from a dict lookup miss, `NameError` from an
unbound name) are modelled with an explicit error type and `Except`.
-/

/-- Python runtime errors raised by the embedded code. -/
inductive PyError where
  | zeroDivisionError
  | keyError (key : String)
  | nameError (name : String)
deriving DecidableEq, Repr

/-- The `str()` rendering Python gives each of those errors
(`ZeroDivisionError` prints "division by zero", `KeyError` prints the
`repr` of the missing key, `NameError` prints the unbound name). -/
def pyErrorStr : PyError → String
  | .zeroDivisionError => "division by zero"
  | .keyError k => "'" ++ k ++ "'"
  | .nameError n => "name '" ++ n ++ "' is not defined"

/-- The state of `Controller` from `pid_control.py`: set point, the three
gains, the time of the previous call `t0`, the running integral `I`, the
previous proportional term `P0`, and the previous response value `c`. -/
structure Controller where
  set_point : ℚ
  kp : ℚ
  ki : ℚ
  kd : ℚ
  t0 : ℚ
  I : ℚ
  P0 : ℚ
  c : ℚ
deriving DecidableEq, Repr

/-- `Controller.__init__(set_point, kp, ki, kd, t0)`: the five arguments are
stored and `I`, `P0`, `c` start at `0`. -/
def Controller.init (set_point kp ki kd t0 : ℚ) : Controller :=
  { set_point := set_point, kp := kp, ki := ki, kd := kd, t0 := t0,
    I := 0, P0 := 0, c := 0 }

/-- A Controller built with every argument omitted, using the Python
default values `set_point=0, kp=1, ki=0, kd=0, t0=0`. -/
def defaultController : Controller := Controller.init 0 1 0 0 0

/-- Default `rtol` of `numpy.isclose`. -/
def np_rtol : ℚ := 1 / 100000

/-- Default `atol` of `numpy.isclose`. -/
def np_atol : ℚ := 1 / 100000000

/-- `numpy.isclose(a, b)` with default tolerances:
`|a - b| <= atol + rtol * |b|`. -/
def npIsClose (a b : ℚ) : Bool := |a - b| ≤ np_atol + np_rtol * |b|

/-- Python `all` over a list of numbers: every element is truthy, i.e.
nonzero.  (An unset `None` gain is falsy in Python exactly like `0`; the
numeric embedding writes it `0`.) -/
def pyAll (l : List ℚ) : Bool := l.all (fun x => decide (x ≠ 0))

/-- `Controller.__call__(x, t)`: returns the updated state and the response.
If `np.isclose(t - t0, 0)` the previous response `c` is returned with no
state change; otherwise if `not all([kp, ki, kd])` (i.e. at least one gain
is zero/None) only `t0` advances and the set point is returned; otherwise
the PID terms are computed and `t0`, `I`, `P0`, `c` are all committed. -/
def Controller.call (s : Controller) (x t : ℚ) : Controller × ℚ :=
  if npIsClose (t - s.t0) 0 then
    (s, s.c)
  else
    let xset := s.set_point
    let kp := s.kp
    let ki := s.ki
    let kd := s.kd
    if ¬ pyAll [kp, ki, kd] then
      ({ s with t0 := t }, xset)
    else
      let t0 := s.t0
      let I := s.I
      let P0 := s.P0
      let Δt := t - t0
      let P := xset - x
      let I := I + P * Δt
      let D := (P - P0) / Δt
      let c := kp * P + ki * I + kd * D
      ({ s with t0 := t, I := I, P0 := P, c := c }, c)

/-- Property read `Controller.ti = kp / ki` (integral time); Python `/`
raises `ZeroDivisionError` when `ki` is zero. -/
def Controller.ti (s : Controller) : Except PyError ℚ :=
  if s.ki = 0 then .error .zeroDivisionError else .ok (s.kp / s.ki)

/-- Property write `Controller.ti = v`, which performs `ki = kp / v`;
raises `ZeroDivisionError` when `v` is zero. -/
def Controller.set_ti (s : Controller) (v : ℚ) : Except PyError Controller :=
  if v = 0 then .error .zeroDivisionError else .ok { s with ki := s.kp / v }

/-- Property read `Controller.td = kd / kp` (derivative time); raises
`ZeroDivisionError` when `kp` is zero. -/
def Controller.td (s : Controller) : Except PyError ℚ :=
  if s.kp = 0 then .error .zeroDivisionError else .ok (s.kd / s.kp)

/-- Property write `Controller.td = v`, which performs `kd = kp * v`
(never raises). -/
def Controller.set_td (s : Controller) (v : ℚ) : Controller :=
  { s with kd := s.kp * v }

/-- Property read `Controller.ku = (1/.6) * kp` (ultimate gain; never
raises, the divisor is the constant `.6`). -/
def Controller.ku (s : Controller) : ℚ := (1 / (6/10 : ℚ)) * s.kp

/-- Property write `Controller.ku = v`, which performs `kp = .6 * v`. -/
def Controller.set_ku (s : Controller) (v : ℚ) : Controller :=
  { s with kp := (6/10 : ℚ) * v }

/-- Property read `Controller.tu = 2 * kp / ki` (oscillation period);
raises `ZeroDivisionError` when `ki` is zero. -/
def Controller.tu (s : Controller) : Except PyError ℚ :=
  if s.ki = 0 then .error .zeroDivisionError else .ok (2 * s.kp / s.ki)

/-- Property write `Controller.tu = v`, which performs `ki = 2*kp/v` and
`kd = kp*v/8`; raises `ZeroDivisionError` when `v` is zero. -/
def Controller.set_tu (s : Controller) (v : ℚ) : Except PyError Controller :=
  if v = 0 then .error .zeroDivisionError
  else .ok { s with ki := 2 * s.kp / v, kd := s.kp * v / 8 }

/-- Per-character ASCII lowering of a string (in Lean 4.14 a `String`
wraps a list of characters).  Python's `str.lower()` is Unicode-aware,
but on pure-ASCII strings — the scope the theorems below restrict
themselves to, see `asciiOnly` — the two agree, and every key of the
scheme dict is pure ASCII. -/
def pyLower (s : String) : String := String.mk (s.data.map Char.toLower)

/-- The string is pure ASCII.  On such strings Python's Unicode
`str.lower()` coincides with the per-character ASCII lowering `pyLower`
(outside ASCII they can differ, e.g. `'İ'.lower()` is the two-character
`'i̇'`). -/
def asciiOnly (s : String) : Bool := s.data.all (fun c => decide (c.toNat < 128))

/-- The `converter` dict of `Controller.ziegler_nichols`, with each lambda
already applied to `(ku, tu)`: a key that is absent maps to `none` (a
dict miss, a `KeyError` in Python); for a present key the lambda
application is modelled with `Except`, because the five schemes whose
`ki` formula divides by `tu` (`pi`, `pid`, `pessen`, `some_overshoot`,
`no_overshoot`) raise `ZeroDivisionError` when `tu = 0` before any triple
is produced.  The Python float literals `.5`, `.45`, `.8`, `.6`, `.7`,
`.33`, `.2`, `1.2`, `2.5` are the exact rationals written here. -/
def converter (ku tu : ℚ) : String → Option (Except PyError (ℚ × ℚ × ℚ))
  | "p" => some (.ok ((5/10) * ku, 0, 0))
  | "pi" => some (if tu = 0 then .error .zeroDivisionError
      else .ok ((45/100) * ku, (12/10) * ((45/100) * ku) / tu, 0))
  | "pd" => some (.ok ((8/10) * ku, 0, ((8/10) * ku) * tu / 8))
  | "pid" => some (if tu = 0 then .error .zeroDivisionError
      else .ok ((6/10) * ku, 2 * ((6/10) * ku) / tu, ((6/10) * ku) * tu / 8))
  | "pessen" => some (if tu = 0 then .error .zeroDivisionError
      else .ok ((7/10) * ku, (25/10) * ((7/10) * ku) / tu,
        3 * ((7/10) * ku) * tu / 20))
  | "some_overshoot" => some (if tu = 0 then .error .zeroDivisionError
      else .ok ((33/100) * ku, 2 * ((33/100) * ku) / tu,
        ((33/100) * ku) * tu / 3))
  | "no_overshoot" => some (if tu = 0 then .error .zeroDivisionError
      else .ok ((2/10) * ku, 2 * ((2/10) * ku) / tu,
        ((2/10) * ku) * tu / 3))
  | _ => none

/-- `Controller.ziegler_nichols(ku, tu, control_type)` as the source
defines it: `converter[control_type.lower()](ku, tu)` either misses the
dict (a `KeyError` carrying the lower-cased key), or applies the scheme
lambda, which at `tu = 0` raises the lambda's `ZeroDivisionError` for
the five schemes that divide by `tu`; when the lambda does yield a
triple, the final statement `self.kp, self.ki, self.kd = ...` is
executed, and since `self` is not a parameter of the function it raises
`NameError: name 'self' is not defined`.  The function has no `return`
statement, so no call ever returns a value. -/
def ziegler_nichols (ku tu : ℚ) (control_type : String) :
    Except PyError (ℚ × ℚ × ℚ) :=
  match converter ku tu (pyLower control_type) with
  | none => .error (.keyError (pyLower control_type))
  | some (.error e) => .error e
  | some (.ok _) => .error (.nameError "self")

/-- `needle` occurs at the front of `hay`. -/
def leadsWith : List Char → List Char → Bool
  | [], _ => true
  | _ :: _, [] => false
  | a :: as, b :: bs => a == b && leadsWith as bs

/-- `needle` occurs somewhere inside `hay`. -/
def occursIn (needle hay : List Char) : Bool :=
  match hay with
  | [] => leadsWith needle []
  | _ :: tl => leadsWith needle hay || occursIn needle tl

/-- Substring test on strings: `t` occurs inside `s`. -/
def strOccursIn (t s : String) : Bool := occursIn t.data s.data

/-! ### Helper lemmas shared by several claim theorems -/

/-- A call whose `t` is within the absolute tolerance of `t0` hits the
first branch of `Controller.__call__` and changes nothing. -/
theorem call_noop_of_close (s : Controller) (x t : ℚ)
    (h : |t - s.t0| ≤ np_atol) :
    s.call x t = (s, s.c) := by
  have hc : npIsClose (t - s.t0) 0 = true := by
    simp only [npIsClose, decide_eq_true_eq, sub_zero, abs_zero, mul_zero,
      add_zero]
    exact h
  simp [Controller.call, hc]

/-! ### Claim theorems -/

/-- Claim C1: the claim says pass-through happens iff `kp`, `ki`, `kd` are
all zero/unset simultaneously, and that a call with at least one nonzero
gain takes the normal PID path.  The code refutes this: the guard
`not all([kp, ki, kd])` fires as soon as ANY gain is zero, so a controller
with `kp = 2, ki = 0, kd = 0` (set point 100, updated with measurement 90
at `t = 1`) takes the pass-through branch — it returns the set point 100
(not the PID output 20), advances only `t0`, and leaves `I`, `P0`, `c`
untouched.  This contradicts the source's own comment "if parameters are
all zero or None, return set point", so it is recorded as a code bug. -/
theorem nonzero_kp_call_passes_through :
    ((Controller.init 100 2 0 0 0).call 90 1).2 = 100 ∧
    ((Controller.init 100 2 0 0 0).call 90 1).2 ≠ 2 * (100 - 90) ∧
    ((Controller.init 100 2 0 0 0).call 90 1).1.t0 = 1 ∧
    ((Controller.init 100 2 0 0 0).call 90 1).1.I = 0 ∧
    ((Controller.init 100 2 0 0 0).call 90 1).1.P0 = 0 ∧
    ((Controller.init 100 2 0 0 0).call 90 1).1.c = 0 := by
  norm_num [Controller.call, Controller.init, npIsClose, np_atol, np_rtol,
    pyAll]

/-- Claim C2: the claim says a pure-P controller (`kp ≠ 0`, `ki = kd = 0`)
returns `kp * (set_point - measurement)`.  The code refutes this: with
`kp = 3, ki = 0, kd = 0`, set point 50, measurement 40 at `t = 1`, the
guard `not all([kp, ki, kd])` fires (because `ki` and `kd` are zero) and
the call returns the set point 50, not `3 * (50 - 40) = 30`.  Recorded as
a code bug (the source comment describes the guard as "all zero or
None"). -/
theorem pure_p_call_returns_set_point :
    ((Controller.init 50 3 0 0 0).call 40 1).2 = 50 ∧
    ((Controller.init 50 3 0 0 0).call 40 1).2 ≠ 3 * (50 - 40) := by
  norm_num [Controller.call, Controller.init, npIsClose, np_atol, np_rtol,
    pyAll]

/-- Claim C3: the claim says `ziegler_nichols` is a pure function returning
the gain triple, with `(10, 2, "pid") ↦ (6, 6, 1.5)` and
`(10, 2, "p") ↦ (5, 0, 0)`.  The dict lambdas do compute exactly those
triples, but the function itself never returns them: its final statement
assigns to `self`, which is not bound in the function (its parameters are
`ku, tu, control_type` only), so every call that passes the dict lookup
raises `NameError: name 'self' is not defined`, and the function has no
return statement.  Recorded as a code bug. -/
theorem zn_pid_raises_name_error :
    converter 10 2 "pid" = some (.ok (6, 6, 3/2)) ∧
    ziegler_nichols 10 2 "pid" = .error (.nameError "self") ∧
    converter 10 2 "p" = some (.ok (5, 0, 0)) ∧
    ziegler_nichols 10 2 "p" = .error (.nameError "self") :=
  ⟨by norm_num [converter], rfl, by norm_num [converter], rfl⟩

/-- Claim C4 (counterexample): the claim requires the error for an unknown
scheme to identify both the invalid scheme and the set of valid names.
At scheme `"foo"` the code raises `KeyError('foo')`, whose message is just
`'foo'` — it names the invalid scheme but mentions none of the seven
valid scheme names, refuting the claim as stated. -/
theorem zn_unknown_scheme_error_is_bare_key :
    ziegler_nichols 10 2 "foo" = .error (.keyError "foo") ∧
    pyErrorStr (.keyError "foo") = "'foo'" ∧
    strOccursIn "p" (pyErrorStr (.keyError "foo")) = false ∧
    strOccursIn "pi" (pyErrorStr (.keyError "foo")) = false ∧
    strOccursIn "pd" (pyErrorStr (.keyError "foo")) = false ∧
    strOccursIn "pid" (pyErrorStr (.keyError "foo")) = false ∧
    strOccursIn "pessen" (pyErrorStr (.keyError "foo")) = false ∧
    strOccursIn "some_overshoot" (pyErrorStr (.keyError "foo")) = false ∧
    strOccursIn "no_overshoot" (pyErrorStr (.keyError "foo")) = false :=
  ⟨rfl, by decide, by decide, by decide, by decide, by decide, by decide,
   by decide, by decide⟩

/-- Claim C4 (amended): for a pure-ASCII scheme name (where Python's
`str.lower()` agrees with ASCII lowering), an unknown name fails with a
`KeyError` carrying only the lower-cased name — never a silent fallback
to a default scheme — while any case variant of a valid name passes the
dict lookup, never raising a `KeyError`: the call then fails with the
scheme lambda's own `ZeroDivisionError` when that is raised (the five
schemes dividing by `tu`, at `tu = 0`), and otherwise with the
`NameError` of the unbound `self`. -/
theorem zn_scheme_dispatch (ku tu : ℚ) (s : String)
    (hs : asciiOnly s = true) :
    (converter ku tu (pyLower s) = none →
      ziegler_nichols ku tu s = .error (.keyError (pyLower s))) ∧
    (∀ g, converter ku tu (pyLower s) = some (.ok g) →
      ziegler_nichols ku tu s = .error (.nameError "self")) ∧
    (∀ e, converter ku tu (pyLower s) = some (.error e) →
      ziegler_nichols ku tu s = .error e) := by
  refine ⟨?_, ?_, ?_⟩
  · intro h
    simp only [ziegler_nichols, h]
  · intro g h
    simp only [ziegler_nichols, h]
  · intro e h
    simp only [ziegler_nichols, h]

/-- Witness for C4's amended theorem at `ku = 10`: the unknown scheme
`"WOMBAT"` gets `KeyError('wombat')`; the case variant `"PID"` of a
valid name passes the lookup, hitting the `NameError` at `tu = 2` and
the scheme lambda's `ZeroDivisionError` at `tu = 0`. -/
theorem zn_scheme_dispatch_witness :
    ziegler_nichols 10 2 "WOMBAT" = .error (.keyError "wombat") ∧
    ziegler_nichols 10 2 "PID" = .error (.nameError "self") ∧
    ziegler_nichols 10 0 "PID" = .error .zeroDivisionError :=
  ⟨(zn_scheme_dispatch 10 2 "WOMBAT" (by decide)).1 rfl,
   (zn_scheme_dispatch 10 2 "PID" (by decide)).2.1 _ rfl,
   (zn_scheme_dispatch 10 0 "PID" (by decide)).2.2 _ rfl⟩

/-- Claim C5 (counterexample): the claim says all three gains default to
zero when omitted, but constructing with every argument omitted gives
`kp = 1`. -/
theorem default_kp_is_one :
    defaultController.kp = 1 ∧ defaultController.kp ≠ 0 := by decide

/-- Claim C5 (amended): constructing with omitted arguments gives
`set_point = 0`, `kp = 1`, `ki = 0`, `kd = 0` and `t0 = 0` — only `ki`
and `kd` default to zero; `kp` defaults to one. -/
theorem default_construction :
    defaultController.set_point = 0 ∧ defaultController.kp = 1 ∧
    defaultController.ki = 0 ∧ defaultController.kd = 0 ∧
    defaultController.t0 = 0 := by decide

/-- Claim C6: a call whose `t` is within the absolute tolerance
(`numpy.isclose` with `b = 0`, i.e. `|t - t0| ≤ 1e-8`) of the stored
timestamp returns the previous output `c` and mutates no field at all;
since the state is returned unchanged, repeating the call is an idempotent
no-op. -/
theorem no_elapsed_time_is_noop (s : Controller) (x t : ℚ)
    (h : |t - s.t0| ≤ np_atol) :
    s.call x t = (s, s.c) :=
  call_noop_of_close s x t h

/-- Witness for C6 at a controller with nontrivial state
(`c = 8`, `t0 = 5`) called again at `t = 5`. -/
theorem no_elapsed_time_is_noop_witness :
    (Controller.mk 1 2 3 4 5 6 7 8).call 100 5 =
      (Controller.mk 1 2 3 4 5 6 7 8, 8) :=
  no_elapsed_time_is_noop (Controller.mk 1 2 3 4 5 6 7 8) 100 5
    (by norm_num [np_atol])

/-- Claim C7: the worked two-call scenario.  With
`set_point = 100, kp = 2, ki = 1/2, kd = 1/10, t0 = 0`, the call
`(measurement 90, t = 1)` returns 26 with `I = 10` and `P0 = 10`, and the
subsequent call `(measurement 95, t = 2)` returns 17 with `I = 15` and
`P0 = 5`, exactly the normal-path arithmetic of the claim. -/
theorem worked_example_two_calls :
    ((Controller.init 100 2 (1/2) (1/10) 0).call 90 1).2 = 26 ∧
    ((Controller.init 100 2 (1/2) (1/10) 0).call 90 1).1.I = 10 ∧
    ((Controller.init 100 2 (1/2) (1/10) 0).call 90 1).1.P0 = 10 ∧
    (((Controller.init 100 2 (1/2) (1/10) 0).call 90 1).1.call 95 2).2 = 17 ∧
    (((Controller.init 100 2 (1/2) (1/10) 0).call 90 1).1.call 95 2).1.I = 15 ∧
    (((Controller.init 100 2 (1/2) (1/10) 0).call 90 1).1.call 95 2).1.P0 = 5 := by
  norm_num [Controller.call, Controller.init, npIsClose, np_atol, np_rtol,
    pyAll]

/-- Claim C8: for any controller with `kp ≠ 0` and any `v ≠ 0`, writing
each tuning view and reading it back returns `v` exactly (`ℚ` is exact, so
"within floating tolerance" holds with zero error): `ti`, `td`, `ku` and
`tu` all round-trip.  Each view is defined purely from `kp`, `ki`, `kd`,
carrying no independent state. -/
theorem tuning_roundtrip (s : Controller) (v : ℚ)
    (hkp : s.kp ≠ 0) (hv : v ≠ 0) :
    (s.set_ti v).bind Controller.ti = Except.ok v ∧
    (s.set_td v).td = Except.ok v ∧
    (s.set_ku v).ku = v ∧
    (s.set_tu v).bind Controller.tu = Except.ok v := by
  refine ⟨?_, ?_, ?_, ?_⟩
  · simp only [Controller.set_ti, if_neg hv, Except.bind, Controller.ti,
      if_neg (div_ne_zero hkp hv), Except.ok.injEq]
    field_simp
  · simp only [Controller.set_td, Controller.td, if_neg hkp,
      Except.ok.injEq]
    field_simp
  · simp only [Controller.set_ku, Controller.ku]
    ring
  · have h2 : 2 * s.kp / v ≠ 0 := div_ne_zero (by positivity) hv
    simp only [Controller.set_tu, if_neg hv, Except.bind, Controller.tu,
      if_neg h2, Except.ok.injEq]
    field_simp

/-- Witness for C8 at `kp = 2, ki = 3, kd = 4` and `v = 5`. -/
theorem tuning_roundtrip_witness :
    ((Controller.init 0 2 3 4 0).set_ti 5).bind Controller.ti =
      Except.ok 5 ∧
    ((Controller.init 0 2 3 4 0).set_td 5).td = Except.ok 5 ∧
    ((Controller.init 0 2 3 4 0).set_ku 5).ku = 5 ∧
    ((Controller.init 0 2 3 4 0).set_tu 5).bind Controller.tu =
      Except.ok 5 :=
  tuning_roundtrip (Controller.init 0 2 3 4 0) 5 (by decide) (by decide)

/-- Claim C9: reading `ti` or `tu` when `ki = 0`, and reading `td` when
`kp = 0`, raises an explicit catchable `ZeroDivisionError` (Python `/` on
a zero denominator) rather than silently returning a finite value. -/
theorem zero_gain_reads_raise (s : Controller) :
    (s.ki = 0 →
      s.ti = .error .zeroDivisionError ∧
      s.tu = .error .zeroDivisionError) ∧
    (s.kp = 0 → s.td = .error .zeroDivisionError) := by
  constructor
  · intro h
    exact ⟨by simp [Controller.ti, h], by simp [Controller.tu, h]⟩
  · intro h
    simp [Controller.td, h]

/-- Witness for C9 at the all-zero-gain controller. -/
theorem zero_gain_reads_raise_witness :
    (Controller.init 0 0 0 0 0).ti = .error .zeroDivisionError ∧
    (Controller.init 0 0 0 0 0).tu = .error .zeroDivisionError ∧
    (Controller.init 0 0 0 0 0).td = .error .zeroDivisionError :=
  ⟨((zero_gain_reads_raise (Controller.init 0 0 0 0 0)).1 rfl).1,
   ((zero_gain_reads_raise (Controller.init 0 0 0 0 0)).1 rfl).2,
   (zero_gain_reads_raise (Controller.init 0 0 0 0 0)).2 rfl⟩

/-- Claim C10: `c` (the last output) is initialised to 0 at construction,
not to the set point, so a freshly constructed controller — whatever its
set point, gains and `t0` — returns 0 from a first call whose `t` is
within tolerance of `t0`, and that call changes nothing. -/
theorem fresh_controller_first_call_zero (sp kp ki kd t0 x t : ℚ)
    (h : |t - t0| ≤ np_atol) :
    (Controller.init sp kp ki kd t0).c = 0 ∧
    (Controller.init sp kp ki kd t0).call x t =
      (Controller.init sp kp ki kd t0, 0) :=
  ⟨rfl, call_noop_of_close (Controller.init sp kp ki kd t0) x t h⟩

/-- Witness for C10 at `set_point = 7`, nonzero gains and `t = t0 = 5`:
the first call returns 0, not the set point 7. -/
theorem fresh_controller_first_call_zero_witness :
    (Controller.init 7 1 2 3 5).c = 0 ∧
    (Controller.init 7 1 2 3 5).call 42 5 =
      (Controller.init 7 1 2 3 5, 0) :=
  fresh_controller_first_call_zero 7 1 2 3 5 42 5 (by norm_num [np_atol])
